import Mathlib

/-!
Verification of the accent-master-ui session controller.

The canonical core is the MobX `AppStore` variant (per-chunk re-record and
synthesis). Each handler is embedded as a pure function on an explicit
`AppStore` state. Await points of the asynchronous handlers are modelled by
splitting a handler into its synchronous prefix and its continuation
(`mediaRecorder.onstop` callbacks become standalone functions taking the state
at the moment they fire), and by passing the outcome of each external call
(`getUserMedia`, the `/predict` fetch, the `/synthesize` fetch) as an explicit
argument. Externally visible effects (stream acquisition and release, the two
network requests) are returned as an event list alongside the new state.
-/

/-- Transcription chunk, as in the `ChunkData` interface: start and end times in
seconds, the transcribed text, and a map from accent label to probability.
Times and probabilities are JS numbers, modelled as rationals. -/
structure ChunkData where
  start : Rat
  «end» : Rat
  text : String
  prediction : List (String × Rat)
deriving DecidableEq

/-- Parsed body of a successful `/predict` response: a base64 image and a chunk
sequence. -/
structure PredictResponse where
  image_base64 : String
  chunks : List ChunkData
deriving DecidableEq

/-- Outcome of a `/predict` fetch: either a parsed response, or any failure
(network error, non-ok status, or body parse error), which all land in the
same catch block of the source. -/
inductive FetchResult where
  | ok (data : PredictResponse)
  | err
deriving DecidableEq

/-- Outcome of a `/synthesize` fetch; on success the source turns the response
blob into an object URL, carried here directly. -/
inductive SynthResult where
  | ok (audioURL : String)
  | err
deriving DecidableEq

/-- Outcome of `navigator.mediaDevices.getUserMedia`. -/
inductive AcquireResult where
  | ok
  | err
deriving DecidableEq

/-- Externally visible effects of the handlers. -/
inductive Event where
  | streamAcquire
  | streamRelease
  | predictRequest
  | synthRequest (text : String) (accent : String)
deriving DecidableEq

/-- The observable state of the `AppStore` class. `audioStream` records whether
a media stream is currently held; `mediaRecorder` whether a recorder object is
set; `audioChunks` the sizes of the captured fragments (the source only ever
uses a fragment through the size of the concatenated blob). `transcriptionData`
entries are `Option ChunkData` because a JS array cell can hold `undefined`
after an out-of-range or absent write; entries produced by the server are
always `some`. -/
structure AppStore where
  imageSrc : Option String := none
  audioSrc : Option String := none
  isRecording : Bool := false
  isLoading : Bool := false
  errorMessage : Option String := none
  transcriptionData : List (Option ChunkData) := []
  synthesizedAudioSrc : Option String := none
  selectedAccent : String := "british"
  rawText : String := ""
  mediaRecorder : Bool := false
  audioStream : Bool := false
  audioChunks : List Nat := []
  chunkBeingRecorded : Option Nat := none
deriving DecidableEq

/-- The freshly constructed store: all fields at their declared initial
values. -/
def AppStore.init : AppStore := {}

/-- Size of the `Blob` concatenating the captured fragments. -/
def blobSize (frags : List Nat) : Nat := frags.foldl (· + ·) 0

/-- JS array write `arr[i] = v`: in bounds it replaces the cell; past the end
it extends the array, filling the gap with holes that read back as `undefined`
(`none`). -/
def jsArraySet (l : List (Option ChunkData)) (i : Nat) (v : Option ChunkData) :
    List (Option ChunkData) :=
  if i < l.length then l.set i v
  else l ++ List.replicate (i - l.length) none ++ [v]

/-- The space-joined transcript text `data.chunks.map(chunk => chunk.text).join(' ')`. -/
def joinedText (chunks : List ChunkData) : String :=
  String.intercalate " " (chunks.map ChunkData.text)

/-- Every error-message value the source can ever leave in `errorMessage`: no
message at all, or one of the four fixed strings passed to `setErrorMessage`
(upload failure, file upload failure, synthesis failure, missing input). No
operation-in-progress message is among them. -/
def sourceErrorMessages : List (Option String) :=
  [none, some "Error uploading audio", some "Error uploading file",
   some "Error synthesizing audio", some "Text or accent is missing."]

/-- The `finally`-block release: stop all tracks of the held stream, if any,
and drop the reference. -/
def releaseStream (s : AppStore) : AppStore × List Event :=
  if s.audioStream then ({ s with audioStream := false }, [Event.streamRelease])
  else (s, [])

/-- Synchronous part of `AppStore.handleStartRecording`, up to
`mediaRecorder.start()`; the `onstop` continuation is `recordingOnStop`.
`acquire` is the outcome of `getUserMedia`; on failure the catch block only
resets `isRecording`, after the result artifacts were already cleared. -/
def handleStartRecording (s : AppStore) (acquire : AcquireResult) :
    AppStore × List Event :=
  let s := { s with isRecording := true, imageSrc := none, errorMessage := none,
                    transcriptionData := [] }
  match acquire with
  | .ok =>
      ({ s with audioStream := true, audioChunks := [], mediaRecorder := true },
       [Event.streamAcquire])
  | .err => ({ s with isRecording := false }, [])

/-- The `ondataavailable` listener: appends a fragment when its size is
positive. -/
def ondataavailable (s : AppStore) (size : Nat) : AppStore :=
  if 0 < size then { s with audioChunks := s.audioChunks ++ [size] } else s

/-- The `onstop` callback installed by `handleStartRecording`, taking the store
state at the moment it fires. An empty blob logs to the console and returns
before the upload block, so neither the loading flag, the error message, nor
the stream are touched on that path. Otherwise the blob becomes the audio
source, the `/predict` request is made, a parsed response replaces the image,
the chunk sequence and the raw text, a failure records the upload error
message, and the `finally` block clears the loading flag and releases the
stream. -/
def recordingOnStop (s : AppStore) (fetch : FetchResult) : AppStore × List Event :=
  if blobSize s.audioChunks = 0 then (s, [])
  else
    let s := { s with audioSrc := some ("blob:" ++ toString (blobSize s.audioChunks)) }
    let s := { s with isLoading := true }
    let s :=
      match fetch with
      | .ok data =>
          { s with imageSrc := some ("data:image/png;base64," ++ data.image_base64),
                   transcriptionData := data.chunks.map some,
                   rawText := joinedText data.chunks }
      | .err => { s with errorMessage := some "Error uploading audio" }
    let s := { s with isLoading := false }
    let (s, rel) := releaseStream s
    (s, Event.predictRequest :: rel)

/-- `AppStore.handleStopRecording`: stops the recorder (which later fires its
`onstop` callback) and clears the recording flag. -/
def handleStopRecording (s : AppStore) : AppStore :=
  if s.mediaRecorder && s.isRecording then { s with isRecording := false } else s

/-- `AppStore.handleStartStopRecording`: toggles between stop and start. -/
def handleStartStopRecording (s : AppStore) (acquire : AcquireResult) :
    AppStore × List Event :=
  if s.isRecording then (handleStopRecording s, [])
  else handleStartRecording s acquire

/-- `AppStore.handleFileUpload` for a present file (`file` is its opaque
identity, used only for the object URL): clears the result artifacts, sets the
audio source, makes the `/predict` request, applies a parsed response to the
image, the chunk sequence and the raw text, records the file upload error
message on failure, and clears the loading flag in `finally`. No stream is
involved on this path. -/
def handleFileUpload (s : AppStore) (file : String) (fetch : FetchResult) :
    AppStore × List Event :=
  let s := { s with imageSrc := none, errorMessage := none, transcriptionData := [] }
  let s := { s with audioSrc := some ("blob:" ++ file) }
  let s := { s with isLoading := true }
  let s :=
    match fetch with
    | .ok data =>
        { s with imageSrc := some ("data:image/png;base64," ++ data.image_base64),
                 transcriptionData := data.chunks.map some,
                 rawText := joinedText data.chunks }
    | .err => { s with errorMessage := some "Error uploading file" }
  ({ s with isLoading := false }, [Event.predictRequest])

/-- `AppStore.handleSynthesize`: JS falsiness of `!text || !accent` is emptiness
of either string; in that case only the missing-input error message is set and
nothing else happens. Otherwise the `/synthesize` request is sent with the
stored raw text and the selected accent; success stores the synthesized audio
URL, failure records the synthesis error message, and `finally` clears the
loading flag. -/
def handleSynthesize (s : AppStore) (synth : SynthResult) : AppStore × List Event :=
  if s.rawText = "" ∨ s.selectedAccent = "" then
    ({ s with errorMessage := some "Text or accent is missing." }, [])
  else
    let text := s.rawText
    let accent := s.selectedAccent
    let s := { s with isLoading := true, errorMessage := none,
                      synthesizedAudioSrc := none }
    let s :=
      match synth with
      | .ok audioURL => { s with synthesizedAudioSrc := some audioURL }
      | .err => { s with errorMessage := some "Error synthesizing audio" }
    ({ s with isLoading := false }, [Event.synthRequest text accent])

/-- Synchronous part of `AppStore.handleStartChunkRecording(index)`, up to
`mediaRecorder.start()`; the `onstop` continuation is `chunkOnStop`. While a
recording is in progress the handler returns at once, changing nothing and
recording no error. Otherwise it stores the chunk index, raises the recording
flag, and acquires the stream; on acquisition failure the catch block only
resets `isRecording`, leaving `chunkBeingRecorded` set. -/
def handleStartChunkRecording (s : AppStore) (index : Nat) (acquire : AcquireResult) :
    AppStore × List Event :=
  if s.isRecording then (s, [])
  else
    let s := { s with chunkBeingRecorded := some index, isRecording := true }
    match acquire with
    | .ok =>
        ({ s with audioStream := true, audioChunks := [], mediaRecorder := true },
         [Event.streamAcquire])
    | .err => ({ s with isRecording := false }, [])

/-- The `onstop` callback installed by `handleStartChunkRecording`, with `index`
the value captured by the closure, taking the store state at the moment it
fires. An empty blob returns before the upload block, so the stream is not
released and `chunkBeingRecorded` and `isRecording` are not reset on that
path. Otherwise the `/predict` request is made; a parsed response has its
element 0 written over the cell at the captured index of the current chunk
sequence (`newData[replacedIndex] = data.chunks[0]`, with no check on the
response length or on the index), a failure records the upload error message,
and the `finally` block clears the loading flag, releases the stream, clears
the chunk index and the recording flag. -/
def chunkOnStop (index : Nat) (s : AppStore) (fetch : FetchResult) :
    AppStore × List Event :=
  if blobSize s.audioChunks = 0 then (s, [])
  else
    let s := { s with isLoading := true }
    let s :=
      match fetch with
      | .ok data =>
          let prevData := s.transcriptionData
          let newData := jsArraySet prevData index (data.chunks.get? 0)
          { s with transcriptionData := newData }
      | .err => { s with errorMessage := some "Error uploading audio" }
    let s := { s with isLoading := false }
    let (s, rel) := releaseStream s
    let s := { s with chunkBeingRecorded := none, isRecording := false }
    (s, Event.predictRequest :: rel)

/-- A complete uninterrupted chunk re-record run: start at `index`, one captured
fragment of size `frag`, stop, and the `onstop` continuation with the given
fetch outcome. No other operation runs in between, so the chunk sequence seen
at merge time is the one seen at start. -/
def rerecordRun (s0 : AppStore) (index frag : Nat) (fetch : FetchResult) :
    AppStore × List Event :=
  let s1 := (handleStartChunkRecording s0 index .ok).1
  let s2 := ondataavailable s1 frag
  let s3 := handleStopRecording s2
  chunkOnStop index s3 fetch

/-! Concrete sample data, shared by witnesses and counterexamples. The three
chunks follow the scenario of the spec testable properties. -/

/-- Sample chunk 0 of the scenario transcript. -/
def chunkA : ChunkData := ⟨0, 1, "hi", [("british", mkRat 9 10), ("us", mkRat 1 10)]⟩

/-- Sample chunk 1 of the scenario transcript. -/
def chunkB : ChunkData := ⟨1, 2, "there", [("british", mkRat 1 2), ("us", mkRat 1 2)]⟩

/-- Sample chunk 2 of the scenario transcript. -/
def chunkC : ChunkData := ⟨2, 3, "x", [("british", mkRat 1 2), ("us", mkRat 1 2)]⟩

/-- Replacement chunk returned by the re-record prediction in the scenario. -/
def chunkB2 : ChunkData := ⟨1, 2, "there again", [("british", mkRat 2 5), ("us", mkRat 3 5)]⟩

/-- A one-chunk transcript used as the response of a second, interleaved full
upload. -/
def chunkD : ChunkData := ⟨0, 2, "replaced", [("british", 1), ("us", 0)]⟩

/-- A store in the reviewing stage: the scenario transcript has been uploaded
and its raw text stored. -/
def storeReviewing : AppStore :=
  { transcriptionData := [some chunkA, some chunkB, some chunkC],
    rawText := "hi there x",
    audioSrc := some "blob:9" }

/-- Stale re-record scenario, step 1: a chunk re-record of index 1 starts from
the reviewing store. -/
def staleStart : AppStore := (handleStartChunkRecording storeReviewing 1 .ok).1

/-- Stale re-record scenario, step 2: one fragment is captured, then a
concurrent full file upload completes and replaces the chunk sequence with a
single chunk while the re-record is still outstanding. -/
def staleMid : AppStore :=
  (handleFileUpload (ondataavailable staleStart 5) "other.wav"
    (.ok ⟨"img2", [chunkD]⟩)).1

/-- Stale re-record scenario, step 3: the re-record stops and its prediction
response arrives, so its merge runs against the mutated sequence. -/
def staleFinal : AppStore :=
  (chunkOnStop 1 (handleStopRecording staleMid) (.ok ⟨"img3", [chunkB2]⟩)).1

/-- The store after a full recording has just started from the initial store
and then been stopped with no captured fragment. -/
def emptyStopStore : AppStore :=
  handleStopRecording (handleStartRecording AppStore.init .ok).1

/-- The store after a chunk re-record of index 1 has just started from the
reviewing store and then been stopped with no captured fragment. -/
def emptyChunkStopStore : AppStore :=
  handleStopRecording (handleStartChunkRecording storeReviewing 1 .ok).1

example : (handleFileUpload AppStore.init "audio.wav"
    (.ok ⟨"img", [chunkA, chunkB, chunkC]⟩)).1.transcriptionData
    = [some chunkA, some chunkB, some chunkC] := by decide

example : (handleFileUpload AppStore.init "audio.wav"
    (.ok ⟨"img", [chunkA, chunkB, chunkC]⟩)).1.rawText = "hi there x" := by decide

/-! Closed forms of the handlers, used by the claim proofs. -/

/-- The state component of the release: the stream reference is dropped; every
other field is untouched. -/
theorem releaseStream_fst (s : AppStore) :
    (releaseStream s).1 = { s with audioStream := false } := by
  cases s with
  | mk f1 f2 f3 f4 f5 f6 f7 f8 f9 f10 f11 f12 f13 => cases f11 <;> rfl

/-- Closed form of the chunk re-record merge on a parsed response and a
non-empty blob. -/
theorem chunkOnStop_ok_eq (i : Nat) (s : AppStore) (d : PredictResponse)
    (hb : blobSize s.audioChunks ≠ 0) :
    chunkOnStop i s (.ok d) =
      ({ s with transcriptionData := jsArraySet s.transcriptionData i (d.chunks.get? 0),
                isLoading := false, audioStream := false,
                chunkBeingRecorded := none, isRecording := false },
       Event.predictRequest ::
         if s.audioStream then [Event.streamRelease] else []) := by
  cases s with
  | mk f1 f2 f3 f4 f5 f6 f7 f8 f9 f10 f11 f12 f13 =>
    unfold chunkOnStop releaseStream
    rw [if_neg hb]
    cases f11 <;> rfl

/-- Closed form of the chunk re-record completion on a failed fetch and a
non-empty blob. -/
theorem chunkOnStop_err_eq (i : Nat) (s : AppStore)
    (hb : blobSize s.audioChunks ≠ 0) :
    chunkOnStop i s .err =
      ({ s with errorMessage := some "Error uploading audio",
                isLoading := false, audioStream := false,
                chunkBeingRecorded := none, isRecording := false },
       Event.predictRequest ::
         if s.audioStream then [Event.streamRelease] else []) := by
  cases s with
  | mk f1 f2 f3 f4 f5 f6 f7 f8 f9 f10 f11 f12 f13 =>
    unfold chunkOnStop releaseStream
    rw [if_neg hb]
    cases f11 <;> rfl

/-- The chunk re-record completion on an empty blob changes nothing and has no
effect. -/
theorem chunkOnStop_empty_eq (i : Nat) (s : AppStore) (f : FetchResult)
    (hb : blobSize s.audioChunks = 0) :
    chunkOnStop i s f = (s, []) := by
  unfold chunkOnStop
  rw [if_pos hb]

/-- Closed form of the recording completion on a parsed response and a
non-empty blob. -/
theorem recordingOnStop_ok_eq (s : AppStore) (d : PredictResponse)
    (hb : blobSize s.audioChunks ≠ 0) :
    recordingOnStop s (.ok d) =
      ({ s with audioSrc := some ("blob:" ++ toString (blobSize s.audioChunks)),
                imageSrc := some ("data:image/png;base64," ++ d.image_base64),
                transcriptionData := d.chunks.map some,
                rawText := joinedText d.chunks,
                isLoading := false, audioStream := false },
       Event.predictRequest ::
         if s.audioStream then [Event.streamRelease] else []) := by
  cases s with
  | mk f1 f2 f3 f4 f5 f6 f7 f8 f9 f10 f11 f12 f13 =>
    unfold recordingOnStop releaseStream
    rw [if_neg hb]
    cases f11 <;> rfl

/-- Closed form of the recording completion on a failed fetch and a non-empty
blob. -/
theorem recordingOnStop_err_eq (s : AppStore)
    (hb : blobSize s.audioChunks ≠ 0) :
    recordingOnStop s .err =
      ({ s with audioSrc := some ("blob:" ++ toString (blobSize s.audioChunks)),
                errorMessage := some "Error uploading audio",
                isLoading := false, audioStream := false },
       Event.predictRequest ::
         if s.audioStream then [Event.streamRelease] else []) := by
  cases s with
  | mk f1 f2 f3 f4 f5 f6 f7 f8 f9 f10 f11 f12 f13 =>
    unfold recordingOnStop releaseStream
    rw [if_neg hb]
    cases f11 <;> rfl

/-- The recording completion on an empty blob changes nothing and has no
effect. -/
theorem recordingOnStop_empty_eq (s : AppStore) (f : FetchResult)
    (hb : blobSize s.audioChunks = 0) :
    recordingOnStop s f = (s, []) := by
  unfold recordingOnStop
  rw [if_pos hb]

/-- Closed form of a successful file upload. -/
theorem handleFileUpload_ok_eq (s : AppStore) (file : String) (d : PredictResponse) :
    handleFileUpload s file (.ok d) =
      ({ s with imageSrc := some ("data:image/png;base64," ++ d.image_base64),
                errorMessage := none,
                transcriptionData := d.chunks.map some,
                audioSrc := some ("blob:" ++ file),
                rawText := joinedText d.chunks,
                isLoading := false },
       [Event.predictRequest]) := by
  cases s with
  | mk f1 f2 f3 f4 f5 f6 f7 f8 f9 f10 f11 f12 f13 => rfl

/-- Closed form of a failed file upload: the chunk sequence stays empty, as
cleared at the start of the handler. -/
theorem handleFileUpload_err_eq (s : AppStore) (file : String) :
    handleFileUpload s file .err =
      ({ s with imageSrc := none,
                errorMessage := some "Error uploading file",
                transcriptionData := [],
                audioSrc := some ("blob:" ++ file),
                isLoading := false },
       [Event.predictRequest]) := by
  cases s with
  | mk f1 f2 f3 f4 f5 f6 f7 f8 f9 f10 f11 f12 f13 => rfl

/-- Synthesis with an empty raw text or an empty accent only records the
missing-input message. -/
theorem handleSynthesize_missing_eq (s : AppStore) (r : SynthResult)
    (h : s.rawText = "" ∨ s.selectedAccent = "") :
    handleSynthesize s r
      = ({ s with errorMessage := some "Text or accent is missing." }, []) := by
  unfold handleSynthesize
  rw [if_pos h]

/-- Closed form of a successful synthesis with non-empty inputs. -/
theorem handleSynthesize_ok_eq (s : AppStore) (url : String)
    (h1 : s.rawText ≠ "") (h2 : s.selectedAccent ≠ "") :
    handleSynthesize s (.ok url) =
      ({ s with isLoading := false, errorMessage := none,
                synthesizedAudioSrc := some url },
       [Event.synthRequest s.rawText s.selectedAccent]) := by
  unfold handleSynthesize
  rw [if_neg (by tauto)]

/-- Closed form of a failed synthesis with non-empty inputs. -/
theorem handleSynthesize_err_eq (s : AppStore)
    (h1 : s.rawText ≠ "") (h2 : s.selectedAccent ≠ "") :
    handleSynthesize s .err =
      ({ s with isLoading := false,
                errorMessage := some "Error synthesizing audio",
                synthesizedAudioSrc := none },
       [Event.synthRequest s.rawText s.selectedAccent]) := by
  unfold handleSynthesize
  rw [if_neg (by tauto)]

/-- Starting a chunk re-record while a recording is in progress is a silent
no-op. -/
theorem handleStartChunkRecording_busy_eq (s : AppStore) (i : Nat)
    (a : AcquireResult) (h : s.isRecording = true) :
    handleStartChunkRecording s i a = (s, []) := by
  unfold handleStartChunkRecording
  rw [if_pos h]

/-- Closed form of a chunk re-record start with successful acquisition. -/
theorem handleStartChunkRecording_ok_eq (s : AppStore) (i : Nat)
    (h : s.isRecording = false) :
    handleStartChunkRecording s i .ok =
      ({ s with chunkBeingRecorded := some i, isRecording := true,
                audioStream := true, audioChunks := [], mediaRecorder := true },
       [Event.streamAcquire]) := by
  unfold handleStartChunkRecording
  rw [if_neg (by simp [h])]

/-- Closed form of a recording start with successful acquisition. -/
theorem handleStartRecording_ok_eq (s : AppStore) :
    handleStartRecording s .ok =
      ({ s with isRecording := true, imageSrc := none, errorMessage := none,
                transcriptionData := [], audioStream := true, audioChunks := [],
                mediaRecorder := true },
       [Event.streamAcquire]) := by
  cases s with
  | mk f1 f2 f3 f4 f5 f6 f7 f8 f9 f10 f11 f12 f13 => rfl

/-- Stopping an active recording only clears the recording flag. -/
theorem handleStopRecording_eq (s : AppStore) (h1 : s.mediaRecorder = true)
    (h2 : s.isRecording = true) :
    handleStopRecording s = { s with isRecording := false } := by
  unfold handleStopRecording
  rw [if_pos (by simp [h1, h2])]

/-- Closed form of an uninterrupted successful chunk re-record run. -/
theorem rerecordRun_ok_eq (s0 : AppStore) (i frag : Nat) (d : PredictResponse)
    (hrec : s0.isRecording = false) (hfrag : 0 < frag) :
    rerecordRun s0 i frag (.ok d) =
      ({ s0 with transcriptionData :=
                   jsArraySet s0.transcriptionData i (d.chunks.get? 0),
                 isRecording := false, isLoading := false, mediaRecorder := true,
                 audioStream := false, audioChunks := [frag],
                 chunkBeingRecorded := none },
       [Event.predictRequest, Event.streamRelease]) := by
  cases s0 with
  | mk f1 f2 f3 f4 f5 f6 f7 f8 f9 f10 f11 f12 f13 =>
    subst hrec
    simp [rerecordRun, handleStartChunkRecording, ondataavailable,
      handleStopRecording, chunkOnStop, releaseStream, blobSize, hfrag,
      hfrag.ne']

/-! Claim theorems. -/

/-- C1 counterexample: a chunk re-record of index 1 starts from the three-chunk
reviewing store; a concurrent full upload then replaces the sequence with the
single chunk `chunkD`; when the re-record prediction arrives, its merge is not
rejected: no error is recorded (in particular nothing like a stale-index
error), and the chunk store is changed — element 0 of the re-record response is
written at index 1 of the one-element sequence, extending it. -/
theorem c1_counterexample :
    staleMid.transcriptionData = [some chunkD] ∧
    staleFinal.transcriptionData = [some chunkD, some chunkB2] ∧
    staleFinal.transcriptionData ≠ staleMid.transcriptionData ∧
    staleFinal.transcriptionData ≠ storeReviewing.transcriptionData ∧
    staleFinal.errorMessage = none := by decide

/-- C1 amended: there is no generation counter and no stale-index rejection;
whenever the re-record completion runs with a non-empty blob and a parsed
response, element 0 of the response is written at the captured index of
whatever chunk sequence is current at merge time, unconditionally, and the
error message is untouched. -/
theorem c1_amended_unconditional_merge (i : Nat) (s : AppStore)
    (d : PredictResponse) (hb : blobSize s.audioChunks ≠ 0) :
    (chunkOnStop i s (.ok d)).1.transcriptionData
        = jsArraySet s.transcriptionData i (d.chunks.get? 0) ∧
    (chunkOnStop i s (.ok d)).1.errorMessage = s.errorMessage := by
  rw [chunkOnStop_ok_eq i s d hb]
  exact ⟨rfl, rfl⟩

/-- Witness for the amended C1 at a concrete merge. -/
theorem c1_amended_witness :
    blobSize ({ storeReviewing with audioChunks := [3] } : AppStore).audioChunks ≠ 0 ∧
    (chunkOnStop 1 { storeReviewing with audioChunks := [3] }
        (.ok ⟨"img", [chunkB2]⟩)).1.transcriptionData
      = jsArraySet
          ({ storeReviewing with audioChunks := [3] } : AppStore).transcriptionData 1
          ((⟨"img", [chunkB2]⟩ : PredictResponse).chunks.get? 0) :=
  ⟨by decide, (c1_amended_unconditional_merge 1 _ _ (by decide)).1⟩

/-- C2: an uninterrupted successful chunk re-record of a valid index `i` whose
prediction response is a single chunk replaces exactly the cell at `i` of the
sequence seen at start and leaves every other cell unchanged. -/
theorem c2_chunk_rerecord_exact (s0 : AppStore) (i frag : Nat) (img : String)
    (c : ChunkData) (hrec : s0.isRecording = false)
    (hi : i < s0.transcriptionData.length) (hfrag : 0 < frag) :
    (rerecordRun s0 i frag (.ok ⟨img, [c]⟩)).1.transcriptionData
        = s0.transcriptionData.set i (some c) ∧
    (rerecordRun s0 i frag (.ok ⟨img, [c]⟩)).1.transcriptionData.get? i
        = some (some c) ∧
    ∀ j, j ≠ i →
      (rerecordRun s0 i frag (.ok ⟨img, [c]⟩)).1.transcriptionData.get? j
        = s0.transcriptionData.get? j := by
  rw [rerecordRun_ok_eq s0 i frag ⟨img, [c]⟩ hrec hfrag]
  refine ⟨by simp [jsArraySet, hi], ?_, ?_⟩
  · simp [jsArraySet, hi, List.getElem?_set_eq_of_lt _ hi]
  · intro j hj
    simp [jsArraySet, hi, List.getElem?_set_ne (Ne.symm hj)]

/-- Witness for C2 at the scenario input: re-record index 1 of the three-chunk
transcript with the single replacement chunk. -/
theorem c2_chunk_rerecord_exact_witness :
    storeReviewing.isRecording = false ∧
    1 < storeReviewing.transcriptionData.length ∧ (0:Nat) < 5 ∧
    (rerecordRun storeReviewing 1 5 (.ok ⟨"img", [chunkB2]⟩)).1.transcriptionData
      = storeReviewing.transcriptionData.set 1 (some chunkB2) :=
  ⟨rfl, by decide, by decide,
   (c2_chunk_rerecord_exact storeReviewing 1 5 "img" chunkB2 rfl (by decide)
      (by decide)).1⟩

/-- C3 counterexample: a file upload invoked on the three-chunk reviewing store
clears the chunk store synchronously, so when the prediction fails, the store
holds the empty sequence and not the sequence held at invocation. -/
theorem c3_counterexample :
    storeReviewing.transcriptionData ≠ [] ∧
    (handleFileUpload storeReviewing "f.wav" .err).1.transcriptionData = [] ∧
    (handleFileUpload storeReviewing "f.wav" .err).1.transcriptionData
      ≠ storeReviewing.transcriptionData := by decide

/-- C3 amended: a successful full upload (file-selection or capture-stop)
replaces the chunk store with the full response sequence, and no partial
response is ever applied; but both upload paths clear the store before the
request, so a failed file-selection upload leaves the store empty rather than
restoring the pre-invocation sequence, and a failed capture-stop upload leaves
the store as it stood when the upload began (capture start had already cleared
it). -/
theorem c3_amended_upload_replacement (s : AppStore) (file : String)
    (d : PredictResponse) (hb : blobSize s.audioChunks ≠ 0) :
    (handleFileUpload s file (.ok d)).1.transcriptionData = d.chunks.map some ∧
    (handleFileUpload s file .err).1.transcriptionData = [] ∧
    (recordingOnStop s (.ok d)).1.transcriptionData = d.chunks.map some ∧
    (recordingOnStop s .err).1.transcriptionData = s.transcriptionData ∧
    (handleStartRecording s .ok).1.transcriptionData = [] := by
  rw [handleFileUpload_ok_eq, handleFileUpload_err_eq,
    recordingOnStop_ok_eq s d hb, recordingOnStop_err_eq s hb,
    handleStartRecording_ok_eq]
  exact ⟨rfl, rfl, rfl, rfl, rfl⟩

/-- Witness for the amended C3 at a concrete upload. -/
theorem c3_amended_witness :
    blobSize ({ storeReviewing with audioChunks := [2] } : AppStore).audioChunks ≠ 0 ∧
    (handleFileUpload { storeReviewing with audioChunks := [2] } "f.wav"
        (.ok ⟨"img", [chunkD]⟩)).1.transcriptionData = [chunkD].map some :=
  ⟨by decide,
   (c3_amended_upload_replacement _ "f.wav" ⟨"img", [chunkD]⟩ (by decide)).1⟩

/-- C4 counterexample: with a capture outstanding (recording flag raised and
the stream held), a file upload is not rejected: it issues its prediction
request, mutates the chunk store, and records no error of any kind. -/
theorem c4_counterexample :
    (handleStartRecording storeReviewing .ok).1.isRecording = true ∧
    (handleStartRecording storeReviewing .ok).1.audioStream = true ∧
    (handleFileUpload (handleStartRecording storeReviewing .ok).1 "f.wav"
        (.ok ⟨"img", [chunkD]⟩)).2 = [Event.predictRequest] ∧
    (handleFileUpload (handleStartRecording storeReviewing .ok).1 "f.wav"
        (.ok ⟨"img", [chunkD]⟩)).1.errorMessage = none ∧
    (handleFileUpload (handleStartRecording storeReviewing .ok).1 "f.wav"
        (.ok ⟨"img", [chunkD]⟩)).1.transcriptionData = [some chunkD] := by
  decide

/-- C4 amended: the only exclusion in the controller is that starting a chunk
re-record while a recording is in progress is a silent no-op — no error is
recorded and nothing is queued. Every other attempt to start a mutating
operation proceeds regardless of what is outstanding: while a capture is
outstanding a full upload still issues its prediction request and a synthesis
still issues its synthesis request; while an upload or a synthesis is
outstanding (the loading flag raised, which no handler consults) a second
synthesis, a second full upload and a chunk re-record all proceed. And no
operation-in-progress error exists: for every state and every outcome, each
handler either leaves the error message unchanged or sets one of the four
fixed failure or missing-input messages of the source. -/
theorem c4_amended_no_mutual_exclusion (s : AppStore) (i : Nat)
    (a : AcquireResult) (file : String) (f : FetchResult) (r : SynthResult)
    (hrec : s.isRecording = true)
    (htext : s.rawText ≠ "") (hacc : s.selectedAccent ≠ "") :
    handleStartChunkRecording s i a = (s, []) ∧
    (handleFileUpload s file f).2 = [Event.predictRequest] ∧
    (handleSynthesize s r).2 = [Event.synthRequest s.rawText s.selectedAccent] ∧
    (handleSynthesize { s with isLoading := true } r).2
        = [Event.synthRequest s.rawText s.selectedAccent] ∧
    (handleFileUpload { s with isLoading := true } file f).2
        = [Event.predictRequest] ∧
    (handleStartChunkRecording { s with isRecording := false, isLoading := true }
        i .ok).2 = [Event.streamAcquire] ∧
    ∀ (t : AppStore) (a2 : AcquireResult) (f2 : FetchResult) (r2 : SynthResult)
        (i2 : Nat) (file2 : String),
      (handleStartRecording t a2).1.errorMessage ∈ sourceErrorMessages ∧
      ((recordingOnStop t f2).1.errorMessage = t.errorMessage ∨
        (recordingOnStop t f2).1.errorMessage ∈ sourceErrorMessages) ∧
      (handleFileUpload t file2 f2).1.errorMessage ∈ sourceErrorMessages ∧
      (handleSynthesize t r2).1.errorMessage ∈ sourceErrorMessages ∧
      (handleStartChunkRecording t i2 a2).1.errorMessage = t.errorMessage ∧
      ((chunkOnStop i2 t f2).1.errorMessage = t.errorMessage ∨
        (chunkOnStop i2 t f2).1.errorMessage ∈ sourceErrorMessages) ∧
      (handleStopRecording t).errorMessage = t.errorMessage := by
  refine ⟨handleStartChunkRecording_busy_eq s i a hrec, ?_, ?_, ?_, ?_, ?_, ?_⟩
  · cases f with
    | ok d => rw [handleFileUpload_ok_eq]
    | err => rw [handleFileUpload_err_eq]
  · cases r with
    | ok url => rw [handleSynthesize_ok_eq s url htext hacc]
    | err => rw [handleSynthesize_err_eq s htext hacc]
  · cases r with
    | ok url =>
        rw [handleSynthesize_ok_eq { s with isLoading := true } url htext hacc]
    | err => rw [handleSynthesize_err_eq { s with isLoading := true } htext hacc]
  · cases f with
    | ok d => rw [handleFileUpload_ok_eq]
    | err => rw [handleFileUpload_err_eq]
  · rw [handleStartChunkRecording_ok_eq
      { s with isRecording := false, isLoading := true } i rfl]
  · intro t a2 f2 r2 i2 file2
    refine ⟨?_, ?_, ?_, ?_, ?_, ?_, ?_⟩
    · cases a2 <;> simp [handleStartRecording, sourceErrorMessages]
    · by_cases hb : blobSize t.audioChunks = 0
      · left
        rw [recordingOnStop_empty_eq t f2 hb]
      · cases f2 with
        | ok d =>
            left
            rw [recordingOnStop_ok_eq t d hb]
        | err =>
            right
            rw [recordingOnStop_err_eq t hb]
            simp [sourceErrorMessages]
    · cases f2 <;> simp [handleFileUpload, sourceErrorMessages]
    · by_cases hs : t.rawText = "" ∨ t.selectedAccent = ""
      · rw [handleSynthesize_missing_eq t r2 hs]
        simp [sourceErrorMessages]
      · push_neg at hs
        cases r2 with
        | ok url =>
            rw [handleSynthesize_ok_eq t url hs.1 hs.2]
            simp [sourceErrorMessages]
        | err =>
            rw [handleSynthesize_err_eq t hs.1 hs.2]
            simp [sourceErrorMessages]
    · by_cases hr : t.isRecording = true
      · rw [handleStartChunkRecording_busy_eq t i2 a2 hr]
      · have hf : t.isRecording = false := by simpa using hr
        cases a2 <;> simp [handleStartChunkRecording, hf]
    · by_cases hb : blobSize t.audioChunks = 0
      · left
        rw [chunkOnStop_empty_eq i2 t f2 hb]
      · cases f2 with
        | ok d =>
            left
            rw [chunkOnStop_ok_eq i2 t d hb]
        | err =>
            right
            rw [chunkOnStop_err_eq i2 t hb]
            simp [sourceErrorMessages]
    · unfold handleStopRecording
      split <;> rfl

/-- Witness for the amended C4: a busy store with non-empty inputs, at which
the chunk re-record attempt during an active recording changes nothing. -/
theorem c4_amended_witness :
    ({ storeReviewing with isRecording := true } : AppStore).isRecording = true ∧
    ({ storeReviewing with isRecording := true } : AppStore).rawText ≠ "" ∧
    ({ storeReviewing with isRecording := true } : AppStore).selectedAccent ≠ "" ∧
    handleStartChunkRecording { storeReviewing with isRecording := true } 0 .ok
      = ({ storeReviewing with isRecording := true }, []) :=
  ⟨rfl, by decide, by decide,
   (c4_amended_no_mutual_exclusion { storeReviewing with isRecording := true }
      0 .ok "f.wav" .err .err rfl (by decide) (by decide)).1⟩

/-- C5 counterexample: a capture is started (stream acquired) and stopped with
zero fragments; the empty-blob exit path of the completion releases nothing —
the handler is a no-op, so the stream acquired at start is still held and no
release event occurs. -/
theorem c5_counterexample :
    emptyStopStore.audioStream = true ∧
    blobSize emptyStopStore.audioChunks = 0 ∧
    recordingOnStop emptyStopStore .err = (emptyStopStore, []) ∧
    (recordingOnStop emptyStopStore .err).1.audioStream = true := by decide

/-- C5 amended: on the upload exit paths (parsed response or fetch failure) of
either capture completion the held stream is released exactly once; on the
empty-blob exit path no release happens and the stream stays held. -/
theorem c5_amended_release (s : AppStore) (f : FetchResult) (i : Nat)
    (hstream : s.audioStream = true) :
    (blobSize s.audioChunks ≠ 0 →
       (recordingOnStop s f).2.count Event.streamRelease = 1 ∧
       (recordingOnStop s f).1.audioStream = false ∧
       (chunkOnStop i s f).2.count Event.streamRelease = 1 ∧
       (chunkOnStop i s f).1.audioStream = false) ∧
    (blobSize s.audioChunks = 0 →
       recordingOnStop s f = (s, []) ∧ chunkOnStop i s f = (s, [])) := by
  constructor
  · intro hb
    cases f with
    | ok d =>
        rw [recordingOnStop_ok_eq s d hb, chunkOnStop_ok_eq i s d hb]
        simp [hstream]
    | err =>
        rw [recordingOnStop_err_eq s hb, chunkOnStop_err_eq i s hb]
        simp [hstream]
  · intro hb
    exact ⟨recordingOnStop_empty_eq s f hb, chunkOnStop_empty_eq i s f hb⟩

/-- Witness for the amended C5 at a concrete completion with a held stream. -/
theorem c5_amended_witness :
    ({ storeReviewing with audioStream := true, audioChunks := [5] }
        : AppStore).audioStream = true ∧
    blobSize ({ storeReviewing with audioStream := true, audioChunks := [5] }
        : AppStore).audioChunks ≠ 0 ∧
    (recordingOnStop { storeReviewing with audioStream := true, audioChunks := [5] }
        .err).2.count Event.streamRelease = 1 :=
  ⟨rfl, by decide, ((c5_amended_release _ .err 0 rfl).1 (by decide)).1⟩

/-- C6 counterexample: stopping a capture with zero fragments records no error
message at all — the failure is only logged to the console — even though no
prediction call is made and the session is idle, so the operation does not
fail with a user-visible empty-recording error. -/
theorem c6_counterexample :
    blobSize emptyStopStore.audioChunks = 0 ∧
    (recordingOnStop emptyStopStore .err).1.errorMessage = none ∧
    (recordingOnStop emptyStopStore .err).2 = [] ∧
    emptyStopStore.isRecording = false := by decide

/-- C6 amended: a stop with an empty finalized blob makes no prediction call
and leaves the session idle, but it aborts silently: the completion is a
no-op, so in particular no error message is recorded. -/
theorem c6_amended_empty_blob (s : AppStore) (f : FetchResult)
    (hb : blobSize s.audioChunks = 0) (hrec : s.isRecording = false) :
    recordingOnStop s f = (s, []) ∧
    (recordingOnStop s f).1.isRecording = false ∧
    (recordingOnStop s f).1.errorMessage = s.errorMessage := by
  rw [recordingOnStop_empty_eq s f hb]
  exact ⟨rfl, hrec, rfl⟩

/-- Witness for the amended C6 at the concrete empty-blob stop. -/
theorem c6_amended_witness :
    blobSize emptyStopStore.audioChunks = 0 ∧
    emptyStopStore.isRecording = false ∧
    recordingOnStop emptyStopStore .err = (emptyStopStore, []) :=
  ⟨by decide, by decide,
   (c6_amended_empty_blob emptyStopStore .err (by decide) (by decide)).1⟩

/-- C7: a synthesis request with an empty joined transcript text or an empty
accent selection fails with the missing-input error message, sends no
synthesis request, and changes nothing else — in particular the loading and
recording flags, the chunk store and the synthesized audio are untouched, so
the phase is unchanged. -/
theorem c7_synthesize_missing_input (s : AppStore) (r : SynthResult)
    (h : s.rawText = "" ∨ s.selectedAccent = "") :
    (handleSynthesize s r).1.errorMessage = some "Text or accent is missing." ∧
    (handleSynthesize s r).2 = [] ∧
    (handleSynthesize s r).1.isLoading = s.isLoading ∧
    (handleSynthesize s r).1.isRecording = s.isRecording ∧
    (handleSynthesize s r).1.transcriptionData = s.transcriptionData ∧
    (handleSynthesize s r).1.synthesizedAudioSrc = s.synthesizedAudioSrc := by
  rw [handleSynthesize_missing_eq s r h]
  exact ⟨rfl, rfl, rfl, rfl, rfl, rfl⟩

/-- Witness for C7 at the initial store, whose raw text is empty. -/
theorem c7_synthesize_missing_input_witness :
    (AppStore.init.rawText = "" ∨ AppStore.init.selectedAccent = "") ∧
    (handleSynthesize AppStore.init .err).1.errorMessage
      = some "Text or accent is missing." :=
  ⟨Or.inl rfl, (c7_synthesize_missing_input AppStore.init .err (Or.inl rfl)).1⟩

/-- C8 counterexample: a chunk re-record of index 1 is started and stopped with
zero fragments; the completion takes the empty-blob early return, so after the
re-record sub-workflow has ended (recording flag already cleared by the stop),
the active chunk index is still set to 1 instead of being cleared. -/
theorem c8_counterexample :
    emptyChunkStopStore.isRecording = false ∧
    blobSize emptyChunkStopStore.audioChunks = 0 ∧
    (chunkOnStop 1 emptyChunkStopStore .err).1.chunkBeingRecorded = some 1 ∧
    (chunkOnStop 1 emptyChunkStopStore .err).1.isRecording = false := by decide

/-- C8 amended: the active chunk index is cleared by the re-record completion
on its upload exit paths (parsed response or fetch failure), but on the
empty-blob exit path the completion returns early and the index stays set; it
also stays set when stream acquisition fails at re-record start. -/
theorem c8_amended_active_index (s : AppStore) (i : Nat) (f : FetchResult) :
    (blobSize s.audioChunks ≠ 0 →
       (chunkOnStop i s f).1.chunkBeingRecorded = none) ∧
    (blobSize s.audioChunks = 0 →
       (chunkOnStop i s f).1.chunkBeingRecorded = s.chunkBeingRecorded) ∧
    (s.isRecording = false →
       (handleStartChunkRecording s i .err).1.chunkBeingRecorded = some i) := by
  refine ⟨?_, ?_, ?_⟩
  · intro hb
    cases f with
    | ok d => rw [chunkOnStop_ok_eq i s d hb]
    | err => rw [chunkOnStop_err_eq i s hb]
  · intro hb
    rw [chunkOnStop_empty_eq i s f hb]
  · intro hrec
    unfold handleStartChunkRecording
    rw [if_neg (by simp [hrec])]

/-- Witness for the amended C8 at the concrete empty-blob re-record stop. -/
theorem c8_amended_witness :
    blobSize emptyChunkStopStore.audioChunks = 0 ∧
    (chunkOnStop 1 emptyChunkStopStore .err).1.chunkBeingRecorded
      = emptyChunkStopStore.chunkBeingRecorded :=
  ⟨by decide, (c8_amended_active_index emptyChunkStopStore 1 .err).2.1 (by decide)⟩

/-- C9: after a full upload stores the joined transcript text, a successful
chunk re-record updates the chunk store but never the stored raw text, and a
subsequent synthesis sends exactly the joined text of the full upload — the
re-recorded chunk text is ignored by synthesis. -/
theorem c9_synthesis_ignores_rerecord (s : AppStore) (file img : String)
    (d : PredictResponse) (c : ChunkData) (i frag : Nat) (r : SynthResult)
    (hrec : s.isRecording = false) (hfrag : 0 < frag)
    (htext : joinedText d.chunks ≠ "") (hacc : s.selectedAccent ≠ "") :
    (rerecordRun (handleFileUpload s file (.ok d)).1 i frag
        (.ok ⟨img, [c]⟩)).1.rawText = joinedText d.chunks ∧
    (rerecordRun (handleFileUpload s file (.ok d)).1 i frag
        (.ok ⟨img, [c]⟩)).1.transcriptionData
      = jsArraySet (d.chunks.map some) i (some c) ∧
    (handleSynthesize
        (rerecordRun (handleFileUpload s file (.ok d)).1 i frag
          (.ok ⟨img, [c]⟩)).1 r).2
      = [Event.synthRequest (joinedText d.chunks) s.selectedAccent] := by
  rw [rerecordRun_ok_eq ((handleFileUpload s file (.ok d)).1) i frag
    ⟨img, [c]⟩ hrec hfrag]
  refine ⟨rfl, rfl, ?_⟩
  cases r with
  | ok url => simp [handleSynthesize, handleFileUpload, htext, hacc]
  | err => simp [handleSynthesize, handleFileUpload, htext, hacc]

/-- Witness for C9 at the scenario transcript: the re-record replaces the text
of chunk 1, yet the raw text sent to synthesis is still the original join. -/
theorem c9_witness :
    AppStore.init.isRecording = false ∧ (0:Nat) < 4 ∧
    joinedText [chunkA, chunkB, chunkC] ≠ "" ∧
    AppStore.init.selectedAccent ≠ "" ∧
    (rerecordRun (handleFileUpload AppStore.init "a.wav"
        (.ok ⟨"img", [chunkA, chunkB, chunkC]⟩)).1 1 4
        (.ok ⟨"img2", [chunkB2]⟩)).1.rawText
      = joinedText [chunkA, chunkB, chunkC] :=
  ⟨rfl, by decide, by decide, by decide,
   (c9_synthesis_ignores_rerecord AppStore.init "a.wav" "img2"
      ⟨"img", [chunkA, chunkB, chunkC]⟩ chunkB2 1 4 .err rfl (by decide)
      (by decide) (by decide)).1⟩

/-- C10: the re-record merge writes element 0 of the response sequence without
checking its length, so a parsed response with an empty chunk sequence
overwrites the cell at the captured index with the absent value while the
sequence length is preserved. -/
theorem c10_empty_response_merge (s : AppStore) (i : Nat) (img : String)
    (hi : i < s.transcriptionData.length) (hb : blobSize s.audioChunks ≠ 0) :
    (chunkOnStop i s (.ok ⟨img, []⟩)).1.transcriptionData
        = s.transcriptionData.set i none ∧
    (chunkOnStop i s (.ok ⟨img, []⟩)).1.transcriptionData.length
        = s.transcriptionData.length ∧
    (chunkOnStop i s (.ok ⟨img, []⟩)).1.transcriptionData.get? i = some none := by
  rw [chunkOnStop_ok_eq i s ⟨img, []⟩ hb]
  refine ⟨by simp [jsArraySet, hi], by simp [jsArraySet, hi], ?_⟩
  simp [jsArraySet, hi, List.getElem?_set_eq_of_lt _ hi]

/-- Witness for C10 at a concrete merge of an empty response into index 1 of
the three-chunk store. -/
theorem c10_empty_response_merge_witness :
    1 < ({ storeReviewing with audioChunks := [7] } : AppStore).transcriptionData.length ∧
    blobSize ({ storeReviewing with audioChunks := [7] } : AppStore).audioChunks ≠ 0 ∧
    (chunkOnStop 1 { storeReviewing with audioChunks := [7] }
        (.ok ⟨"img", []⟩)).1.transcriptionData
      = ({ storeReviewing with audioChunks := [7] }
          : AppStore).transcriptionData.set 1 none :=
  ⟨by decide, by decide,
   (c10_empty_response_merge _ 1 "img" (by decide) (by decide)).1⟩
